import Mathlib

/-!
# Verification of the Book CRUD HTTP API

Shallow embedding of the Go program (two deployment variants: `main.go`,
which assembles its database connection string from an Azure Key Vault
secret, and a second variant using a literal constant connection string).
The two variants' five HTTP handlers (`GetBooks`, `GetBook`, `CreateBook`,
`UpdateBook`, `DeleteBook`) are embedded separately in namespaces
`KeyVault` (from `main.go`) and `LiteralDsn` (from the second file).

Modelling notes:
* `Book` carries the fields the program reads and writes: the `gorm.Model`
  primary key `ID` (Go `uint`, modelled as `Nat` with explicit `% 2^64`
  where the code converts), `BookName`, `Author`, `Price`.  `Price` is a
  Go `float64` that is only ever decoded, stored and re-encoded — never
  computed with — so it is modelled by `ℚ`, a pass-through value with
  decidable equality.  The `gorm.Model` timestamps are never read by the
  program; the soft-delete marker `DeletedAt` is modelled as a `deleted`
  flag on each database row because GORM's query/delete semantics depend
  on it.
* A decoded JSON request body is a `BookPatch`: for each field, `some v`
  when the key is present in the JSON object and `none` when absent.
  Go's `encoding/json` matches keys case-insensitively against the
  promoted `gorm.Model.ID` field, so a body key `"id"` (or `"ID"`) does
  populate `Book.ID`.  Decoding into an existing struct value only
  overwrites fields whose keys are present (`applyPatch`).  An
  undecodable body is `Except.error msg` where `msg` is the decoder's
  error message.
* GORM operations on the SQL database: `Find` returns all rows whose
  soft-delete marker is unset; `First` returns the first such row with
  the given primary key or an error (record-not-found or a database
  failure); `Create` inserts, using the struct's primary key when it is
  nonzero and the auto-increment counter when it is zero, failing on a
  primary-key conflict; `Save` (with nonzero key) updates every live row
  with that key; `Delete` soft-deletes every live row with the key.
  External database failures are injected through a `Faults` oracle
  giving, per operation kind, the error message of the failure (if any).
* The `gorilla/mux` router of `main` registers `/books` and
  `/book/{id:[0-9]+}`; a path whose `id` segment is not all digits
  matches no route and receives mux's not-found response (404), and a
  matched path with a wrong method receives 405.  Paths are modelled as
  segment lists.  `strconv.Atoi` is modelled by `goAtoi`, including the
  64-bit range check.
* A handler's observable behaviour is its HTTP response (status and
  body, `http.Error` plain-text bodies modelled without the trailing
  newline) together with the resulting database state; the global `DB`
  handle is `Option DBState` (`none` = nil, never initialised).
-/

/-- The `Book` entity: `gorm.Model`'s primary key plus the three
declared fields.  `id` is Go `uint`. -/
structure Book where
  id : Nat
  bookName : String
  author : String
  price : ℚ
  deriving Repr, DecidableEq

/-- The zero value of `Book`, as produced by `var book Book`. -/
def zeroBook : Book := ⟨0, "", "", 0⟩

/-- A decoded JSON body: which Book fields the JSON object carries, and
their values.  `none` = key absent from the body. -/
structure BookPatch where
  id : Option Nat
  bookName : Option String
  author : Option String
  price : Option ℚ
  deriving Repr, DecidableEq

/-- Go `json.Unmarshal` into an existing struct value: a field present in
the JSON overwrites, a field absent is left unchanged. -/
def applyPatch (base : Book) (p : BookPatch) : Book :=
  { id := p.id.getD base.id
    bookName := p.bookName.getD base.bookName
    author := p.author.getD base.author
    price := p.price.getD base.price }

/-- One stored table row: the book columns plus the `deleted_at IS NOT
NULL` soft-delete marker. -/
structure Row where
  book : Book
  deleted : Bool
  deriving Repr, DecidableEq

/-- The `books` table plus the identity (auto-increment) counter. -/
structure DBState where
  rows : List Row
  nextId : Nat
  deriving Repr, DecidableEq

/-- The kinds of GORM operations the handlers perform. -/
inductive DBOp
  | find
  | first
  | create
  | save
  | delete
  deriving Repr, DecidableEq

/-- External-failure oracle: for each operation kind, `some msg` when the
database fails that operation with error message `msg`. -/
def Faults := DBOp → Option String

/-- The oracle of a healthy database: no operation fails. -/
def noFaults : Faults := fun _ => none

/-- `DB.Find(&books)`: every live (non-soft-deleted) row, in table
order.  On zero rows GORM sets the destination to an empty (non-nil)
slice, so the JSON encoding is `[]`. -/
def visibleBooks (db : DBState) : List Book :=
  (db.rows.filter (fun r => !r.deleted)).map Row.book

/-- `DB.First(&book, id)` row lookup: the first live row whose primary
key equals the (signed) condition value. -/
def findRow (db : DBState) (i : Int) : Option Book :=
  (db.rows.find? (fun r => !r.deleted && ((r.book.id : Int) == i))).map Row.book

/-- Largest Go `int` (64-bit): `strconv.Atoi` fails beyond it. -/
def intMax : Nat := 9223372036854775807

/-- Decimal value of a character run: `some` iff it is a nonempty run
of ASCII digits (the character-list form of `String.toNat?`). -/
def digitsToNat? (cs : List Char) : Option Nat :=
  if cs ≠ [] ∧ cs.all Char.isDigit then
    some (cs.foldl (fun n c => n * 10 + (c.toNat - '0'.toNat)) 0)
  else
    none

/-- `strconv.Atoi`: optional sign, then a nonempty run of ASCII digits,
within the 64-bit signed range; anything else is an error (`none`). -/
def goAtoi (s : String) : Option Int :=
  match s.data with
  | [] => none
  | c :: rest =>
    if c = '-' then
      match digitsToNat? rest with
      | some n => if n ≤ intMax + 1 then some (-(n : Int)) else none
      | none => none
    else if c = '+' then
      match digitsToNat? rest with
      | some n => if n ≤ intMax then some (n : Int) else none
      | none => none
    else
      match digitsToNat? (c :: rest) with
      | some n => if n ≤ intMax then some (n : Int) else none
      | none => none

/-- Go's `uint(i)` conversion from `int`: reduction modulo `2^64`. -/
def uintOfInt (i : Int) : Nat := (i % (2 : Int) ^ 64).toNat

/-- Whether some row (live or soft-deleted) already holds primary key
`n`: an insert with this key violates the primary-key constraint. -/
def idTaken (db : DBState) (n : Nat) : Bool :=
  db.rows.any (fun r => r.book.id == n)

/-- `DB.Create(&book)`: insert one row.  A zero primary key is replaced
by the identity counter's next value; a nonzero one is used as given
(GORM inserts a record with its specified primary key).  A key conflict
is a database error.  The identity counter is kept past every key ever
inserted. -/
def createOp (db : DBState) (b : Book) : Except String (Book × DBState) :=
  let newId := if b.id = 0 then db.nextId else b.id
  if idTaken db newId then
    .error "Violation of PRIMARY KEY constraint"
  else
    let b' := { b with id := newId }
    .ok (b', ⟨db.rows ++ [⟨b', false⟩], max db.nextId (newId + 1)⟩)

/-- `DB.Save(&book)` with a nonzero primary key: update every live row
whose key equals `b.id` to the columns of `b`. -/
def saveOp (db : DBState) (b : Book) : DBState :=
  ⟨db.rows.map (fun r =>
      if !r.deleted && (r.book.id == b.id) then ⟨b, r.deleted⟩ else r),
    db.nextId⟩

/-- `DB.Delete(&book, id)`: soft delete — set the deletion marker on
every live row whose primary key equals the condition value. -/
def deleteOp (db : DBState) (i : Int) : DBState :=
  ⟨db.rows.map (fun r =>
      if !r.deleted && ((r.book.id : Int) == i) then ⟨r.book, true⟩ else r),
    db.nextId⟩

/-- An HTTP response body as the handlers produce them: a JSON-encoded
Book, a JSON array of Books, a JSON-encoded string, or an `http.Error`
plain-text body. -/
inductive RespBody
  | jsonBook (b : Book)
  | jsonBooks (bs : List Book)
  | jsonString (s : String)
  | text (s : String)
  deriving Repr, DecidableEq

/-- An HTTP response: status code and body. -/
structure Response where
  status : Nat
  body : RespBody
  deriving Repr, DecidableEq

/-- The response every handler writes when the global `DB` handle is
nil. -/
def dbNotInit : Response := ⟨500, .text "Database not initialized"⟩

/-! ## The five handlers of `main.go` (Key Vault variant)

Each handler takes the global `DB` handle (`none` = nil), its request
inputs, and the fault oracle, and returns the response together with the
resulting `DB` handle. -/

namespace KeyVault

/-- `GetBooks` from `main.go`. -/
def GetBooks (odb : Option DBState) (f : Faults) :
    Response × Option DBState :=
  match odb with
  | none => (dbNotInit, none)
  | some db =>
    match f .find with
    | some msg => (⟨500, .text msg⟩, some db)
    | none => (⟨200, .jsonBooks (visibleBooks db)⟩, some db)

/-- `GetBook` from `main.go`; `idSeg` is the `{id}` path variable. -/
def GetBook (odb : Option DBState) (idSeg : String) (f : Faults) :
    Response × Option DBState :=
  match odb with
  | none => (dbNotInit, none)
  | some db =>
    match goAtoi idSeg with
    | none => (⟨400, .text "Invalid ID format"⟩, some db)
    | some i =>
      match f .first with
      | some _ => (⟨404, .text "Book not found"⟩, some db)
      | none =>
        match findRow db i with
        | none => (⟨404, .text "Book not found"⟩, some db)
        | some b => (⟨200, .jsonBook b⟩, some db)

/-- `CreateBook` from `main.go`; `body` is the decoded JSON request
body (or the decode error). -/
def CreateBook (odb : Option DBState) (body : Except String BookPatch)
    (f : Faults) : Response × Option DBState :=
  match odb with
  | none => (dbNotInit, none)
  | some db =>
    match body with
    | .error msg => (⟨400, .text msg⟩, some db)
    | .ok p =>
      match f .create with
      | some msg => (⟨500, .text msg⟩, some db)
      | none =>
        match createOp db (applyPatch zeroBook p) with
        | .error msg => (⟨500, .text msg⟩, some db)
        | .ok (b, db') => (⟨200, .jsonBook b⟩, some db')

/-- `UpdateBook` from `main.go`: fetch the row, decode the body into the
fetched struct (merge), force `book.ID = uint(id)`, save. -/
def UpdateBook (odb : Option DBState) (idSeg : String)
    (body : Except String BookPatch) (f : Faults) :
    Response × Option DBState :=
  match odb with
  | none => (dbNotInit, none)
  | some db =>
    match goAtoi idSeg with
    | none => (⟨400, .text "Invalid ID format"⟩, some db)
    | some i =>
      match f .first with
      | some _ => (⟨404, .text "Book not found"⟩, some db)
      | none =>
        match findRow db i with
        | none => (⟨404, .text "Book not found"⟩, some db)
        | some b0 =>
          match body with
          | .error msg => (⟨400, .text msg⟩, some db)
          | .ok p =>
            let b1 := { applyPatch b0 p with id := uintOfInt i }
            match f .save with
            | some msg => (⟨500, .text msg⟩, some db)
            | none => (⟨200, .jsonBook b1⟩, some (saveOp db b1))

/-- `DeleteBook` from `main.go`: fetch the row, then soft-delete by the
path id. -/
def DeleteBook (odb : Option DBState) (idSeg : String) (f : Faults) :
    Response × Option DBState :=
  match odb with
  | none => (dbNotInit, none)
  | some db =>
    match goAtoi idSeg with
    | none => (⟨400, .text "Invalid ID format"⟩, some db)
    | some i =>
      match f .first with
      | some _ => (⟨404, .text "Book not found"⟩, some db)
      | none =>
        match findRow db i with
        | none => (⟨404, .text "Book not found"⟩, some db)
        | some _ =>
          match f .delete with
          | some msg => (⟨500, .text msg⟩, some db)
          | none =>
            (⟨200, .jsonString "The book is deleted successfully!"⟩,
              some (deleteOp db i))

end KeyVault

/-! ## The five handlers of the second variant (literal connection
string).  The handler bodies in that file are textually identical to
`main.go`'s; only startup (`main`, the constant `dsn`) differs. -/

namespace LiteralDsn

/-- `GetBooks` from the literal-DSN variant. -/
def GetBooks (odb : Option DBState) (f : Faults) :
    Response × Option DBState :=
  match odb with
  | none => (dbNotInit, none)
  | some db =>
    match f .find with
    | some msg => (⟨500, .text msg⟩, some db)
    | none => (⟨200, .jsonBooks (visibleBooks db)⟩, some db)

/-- `GetBook` from the literal-DSN variant. -/
def GetBook (odb : Option DBState) (idSeg : String) (f : Faults) :
    Response × Option DBState :=
  match odb with
  | none => (dbNotInit, none)
  | some db =>
    match goAtoi idSeg with
    | none => (⟨400, .text "Invalid ID format"⟩, some db)
    | some i =>
      match f .first with
      | some _ => (⟨404, .text "Book not found"⟩, some db)
      | none =>
        match findRow db i with
        | none => (⟨404, .text "Book not found"⟩, some db)
        | some b => (⟨200, .jsonBook b⟩, some db)

/-- `CreateBook` from the literal-DSN variant. -/
def CreateBook (odb : Option DBState) (body : Except String BookPatch)
    (f : Faults) : Response × Option DBState :=
  match odb with
  | none => (dbNotInit, none)
  | some db =>
    match body with
    | .error msg => (⟨400, .text msg⟩, some db)
    | .ok p =>
      match f .create with
      | some msg => (⟨500, .text msg⟩, some db)
      | none =>
        match createOp db (applyPatch zeroBook p) with
        | .error msg => (⟨500, .text msg⟩, some db)
        | .ok (b, db') => (⟨200, .jsonBook b⟩, some db')

/-- `UpdateBook` from the literal-DSN variant. -/
def UpdateBook (odb : Option DBState) (idSeg : String)
    (body : Except String BookPatch) (f : Faults) :
    Response × Option DBState :=
  match odb with
  | none => (dbNotInit, none)
  | some db =>
    match goAtoi idSeg with
    | none => (⟨400, .text "Invalid ID format"⟩, some db)
    | some i =>
      match f .first with
      | some _ => (⟨404, .text "Book not found"⟩, some db)
      | none =>
        match findRow db i with
        | none => (⟨404, .text "Book not found"⟩, some db)
        | some b0 =>
          match body with
          | .error msg => (⟨400, .text msg⟩, some db)
          | .ok p =>
            let b1 := { applyPatch b0 p with id := uintOfInt i }
            match f .save with
            | some msg => (⟨500, .text msg⟩, some db)
            | none => (⟨200, .jsonBook b1⟩, some (saveOp db b1))

/-- `DeleteBook` from the literal-DSN variant. -/
def DeleteBook (odb : Option DBState) (idSeg : String) (f : Faults) :
    Response × Option DBState :=
  match odb with
  | none => (dbNotInit, none)
  | some db =>
    match goAtoi idSeg with
    | none => (⟨400, .text "Invalid ID format"⟩, some db)
    | some i =>
      match f .first with
      | some _ => (⟨404, .text "Book not found"⟩, some db)
      | none =>
        match findRow db i with
        | none => (⟨404, .text "Book not found"⟩, some db)
        | some _ =>
          match f .delete with
          | some msg => (⟨500, .text msg⟩, some db)
          | none =>
            (⟨200, .jsonString "The book is deleted successfully!"⟩,
              some (deleteOp db i))

end LiteralDsn

/-! ## The router of `main` -/

/-- The `[0-9]+` constraint of the `{id:[0-9]+}` route variable: a
nonempty run of ASCII digits. -/
def isDigits (s : String) : Bool := !s.isEmpty && s.data.all Char.isDigit

/-- Whether a request path (as segments) matches some registered route
template, irrespective of method: `/books` or `/book/{id:[0-9]+}`. -/
def pathMatchesTemplate (path : List String) : Bool :=
  match path with
  | ["books"] => true
  | ["book", s] => isDigits s
  | _ => false

/-- Dispatch of the `gorilla/mux` router built in `main`, over the
`main.go` handlers.  A path matching no route template gets mux's
not-found response (404, `http.NotFoundHandler` body); a matched path
with an unregistered method gets 405 with an empty body. -/
def serve (method : String) (path : List String)
    (body : Except String BookPatch) (odb : Option DBState) (f : Faults) :
    Response × Option DBState :=
  match method, path with
  | "GET", ["books"] => KeyVault.GetBooks odb f
  | "POST", ["books"] => KeyVault.CreateBook odb body f
  | "GET", ["book", s] =>
    if isDigits s then KeyVault.GetBook odb s f
    else (⟨404, .text "404 page not found"⟩, odb)
  | "PUT", ["book", s] =>
    if isDigits s then KeyVault.UpdateBook odb s body f
    else (⟨404, .text "404 page not found"⟩, odb)
  | "DELETE", ["book", s] =>
    if isDigits s then KeyVault.DeleteBook odb s f
    else (⟨404, .text "404 page not found"⟩, odb)
  | _, p =>
    if pathMatchesTemplate p then (⟨405, .text ""⟩, odb)
    else (⟨404, .text "404 page not found"⟩, odb)

/-! ## Helper lemmas -/

/-- Any integer `strconv.Atoi` accepts is at most the 64-bit maximum. -/
theorem goAtoi_le_intMax {s : String} {i : Int} (h : goAtoi s = some i) :
    i ≤ (intMax : Int) := by
  unfold goAtoi at h
  split at h
  · exact absurd h (by simp)
  · split at h
    · split at h
      · split at h
        · obtain rfl := Option.some.inj h
          have : (0 : Int) ≤ (intMax : Int) := by positivity
          omega
        · exact absurd h (by simp)
      · exact absurd h (by simp)
    · split at h
      · split at h
        · split at h
          · obtain rfl := Option.some.inj h
            omega
          · exact absurd h (by simp)
        · exact absurd h (by simp)
      · split at h
        · split at h
          · obtain rfl := Option.some.inj h
            omega
          · exact absurd h (by simp)
        · exact absurd h (by simp)

/-- A successful `First` lookup returns a book whose primary key is the
condition value. -/
theorem findRow_id {db : DBState} {i : Int} {b : Book}
    (h : findRow db i = some b) : (b.id : Int) = i := by
  unfold findRow at h
  cases hf : db.rows.find? (fun r => !r.deleted && ((r.book.id : Int) == i)) with
  | none => rw [hf] at h; simp at h
  | some r =>
    rw [hf] at h
    have hp := List.find?_some hf
    simp only [Bool.and_eq_true, beq_iff_eq] at hp
    simp only [Option.map_some'] at h
    obtain rfl := Option.some.inj h
    exact hp.2

/-- The `First` row condition can equivalently compare the `Nat` primary
keys when the `Int` condition value is the cast of a key. -/
theorem row_pred_cast (m : Nat) :
    (fun r : Row => !r.deleted && ((r.book.id : Int) == (m : Int)))
      = (fun r : Row => !r.deleted && (r.book.id == m)) := by
  funext r
  rw [Bool.eq_iff_iff]
  simp [Bool.and_eq_true, beq_iff_eq]

/-- List form of `findRow` after `saveOp`: if some live row holds key
`b.id`, the first live row holding it after the update is `⟨b, false⟩`. -/
theorem find?_after_save (l : List Row) (b : Book)
    (h : (l.find? (fun r => !r.deleted && (r.book.id == b.id))).isSome) :
    ((l.map (fun r =>
        if !r.deleted && (r.book.id == b.id) then (⟨b, r.deleted⟩ : Row) else r)).find?
      (fun r => !r.deleted && (r.book.id == b.id))) = some ⟨b, false⟩ := by
  induction l with
  | nil => simp at h
  | cons r rs ih =>
    by_cases hr : (!r.deleted && (r.book.id == b.id)) = true
    · have hd : r.deleted = false := by
        have := hr
        simp only [Bool.and_eq_true, Bool.not_eq_true'] at this
        exact this.1
      rw [List.map_cons, if_pos hr, List.find?_cons_of_pos _ (by simp [hd])]
      rw [hd]
    · have hrf : (!r.deleted && (r.book.id == b.id)) = false := by
        rwa [Bool.not_eq_true] at hr
      rw [List.map_cons, if_neg hr]
      simp only [List.find?_cons, hrf]
      apply ih
      simp only [List.find?_cons, hrf] at h
      exact h

/-- After `Save` of a book carrying the looked-up key, `First` at that
key returns exactly the saved book. -/
theorem findRow_saveOp {db : DBState} {b : Book} {i : Int}
    (hb : (b.id : Int) = i) (h : (findRow db i).isSome) :
    findRow (saveOp db b) i = some b := by
  subst hb
  unfold findRow saveOp at *
  rw [row_pred_cast b.id] at *
  have h' : ((db.rows.find? (fun r => !r.deleted && (r.book.id == b.id)))).isSome := by
    cases hf : db.rows.find? (fun r => !r.deleted && (r.book.id == b.id)) with
    | none => rw [hf] at h; simp at h
    | some r => simp
  rw [find?_after_save db.rows b h']
  rfl

/-- List form of `findRow` after `deleteOp`: once every live row holding
the key is marked deleted, the lookup finds nothing. -/
theorem find?_after_del (l : List Row) (i : Int) :
    ((l.map (fun r =>
        if !r.deleted && ((r.book.id : Int) == i) then (⟨r.book, true⟩ : Row) else r)).find?
      (fun r => !r.deleted && ((r.book.id : Int) == i))) = none := by
  induction l with
  | nil => rfl
  | cons r rs ih =>
    by_cases hr : (!r.deleted && ((r.book.id : Int) == i)) = true
    · rw [List.map_cons, if_pos hr]
      simp only [List.find?_cons, Bool.not_true, Bool.false_and]
      exact ih
    · have hrf : (!r.deleted && ((r.book.id : Int) == i)) = false := by
        rwa [Bool.not_eq_true] at hr
      rw [List.map_cons, if_neg hr]
      simp only [List.find?_cons, hrf]
      exact ih

/-- `First` by a key finds nothing after `Delete` by that key. -/
theorem findRow_deleteOp (db : DBState) (i : Int) :
    findRow (deleteOp db i) i = none := by
  unfold findRow deleteOp
  rw [find?_after_del]
  rfl

/-- A row appended to a table in which its key is fresh is what `First`
by that key returns. -/
theorem findRow_insert (db : DBState) (bk : Book) (k : Nat)
    (h : idTaken db bk.id = false) :
    findRow ⟨db.rows ++ [⟨bk, false⟩], k⟩ (bk.id : Int) = some bk := by
  unfold findRow
  rw [row_pred_cast bk.id]
  have hnone : db.rows.find? (fun r => !r.deleted && (r.book.id == bk.id)) = none := by
    rw [List.find?_eq_none]
    intro r hr
    unfold idTaken at h
    rw [List.any_eq_false] at h
    have := h r hr
    simp only [beq_iff_eq] at this ⊢
    simp [this]
  simp only [List.find?_append, hnone, Option.none_or]
  rw [List.find?_cons_of_pos _ (by simp)]
  rfl

/-! ## Claims -/

/-- C9: the Key Vault variant and the literal-connection-string variant
have extensionally equal request-handling behaviour: on every input,
each of the five handlers produces the same response and the same
database effect in both variants. -/
theorem c9_variants_extensionally_equal :
    (∀ odb f, KeyVault.GetBooks odb f = LiteralDsn.GetBooks odb f) ∧
    (∀ odb s f, KeyVault.GetBook odb s f = LiteralDsn.GetBook odb s f) ∧
    (∀ odb body f,
      KeyVault.CreateBook odb body f = LiteralDsn.CreateBook odb body f) ∧
    (∀ odb s body f,
      KeyVault.UpdateBook odb s body f = LiteralDsn.UpdateBook odb s body f) ∧
    (∀ odb s f, KeyVault.DeleteBook odb s f = LiteralDsn.DeleteBook odb s f) :=
  ⟨fun _ _ => rfl, fun _ _ _ => rfl, fun _ _ _ => rfl,
    fun _ _ _ _ => rfl, fun _ _ _ => rfl⟩

/-- C10: with a nil database handle, every one of the five handlers (in
both variants) responds 500 with body `Database not initialized`,
consults no database operation (the fault oracle is arbitrary), and
leaves the handle unchanged (`none`). -/
theorem c10_nil_db_guard :
    (∀ f, KeyVault.GetBooks none f =
      (⟨500, .text "Database not initialized"⟩, none)) ∧
    (∀ s f, KeyVault.GetBook none s f =
      (⟨500, .text "Database not initialized"⟩, none)) ∧
    (∀ body f, KeyVault.CreateBook none body f =
      (⟨500, .text "Database not initialized"⟩, none)) ∧
    (∀ s body f, KeyVault.UpdateBook none s body f =
      (⟨500, .text "Database not initialized"⟩, none)) ∧
    (∀ s f, KeyVault.DeleteBook none s f =
      (⟨500, .text "Database not initialized"⟩, none)) ∧
    (∀ f, LiteralDsn.GetBooks none f =
      (⟨500, .text "Database not initialized"⟩, none)) ∧
    (∀ s f, LiteralDsn.GetBook none s f =
      (⟨500, .text "Database not initialized"⟩, none)) ∧
    (∀ body f, LiteralDsn.CreateBook none body f =
      (⟨500, .text "Database not initialized"⟩, none)) ∧
    (∀ s body f, LiteralDsn.UpdateBook none s body f =
      (⟨500, .text "Database not initialized"⟩, none)) ∧
    (∀ s f, LiteralDsn.DeleteBook none s f =
      (⟨500, .text "Database not initialized"⟩, none)) :=
  ⟨fun _ => rfl, fun _ _ => rfl, fun _ _ => rfl, fun _ _ _ => rfl,
    fun _ _ => rfl, fun _ => rfl, fun _ _ => rfl, fun _ _ => rfl,
    fun _ _ _ => rfl, fun _ _ => rfl⟩

/-- C8: `GET /books` responds 200 with the JSON array of exactly the
live Book rows — the empty array on an empty table — and 500 with the
error message when the query fails. -/
theorem c8_list_books (db : DBState) (f : Faults) :
    (f .find = none →
      KeyVault.GetBooks (some db) f =
        (⟨200, .jsonBooks (visibleBooks db)⟩, some db)) ∧
    (∀ msg, f .find = some msg →
      KeyVault.GetBooks (some db) f = (⟨500, .text msg⟩, some db)) ∧
    (∀ n, visibleBooks ⟨[], n⟩ = []) := by
  refine ⟨fun h => ?_, fun msg h => ?_, fun n => rfl⟩
  · simp [KeyVault.GetBooks, h]
  · simp [KeyVault.GetBooks, h]

/-- Witness for C8 at concrete inputs: an empty table and a healthy
database give `200 []`; a failing query gives 500 with its message. -/
theorem c8_list_books_witness :
    KeyVault.GetBooks (some ⟨[], 1⟩) noFaults =
      (⟨200, .jsonBooks []⟩, some ⟨[], 1⟩) ∧
    KeyVault.GetBooks (some ⟨[], 1⟩) (fun _ => some "query failed") =
      (⟨500, .text "query failed"⟩, some ⟨[], 1⟩) := by
  constructor
  · have h := (c8_list_books ⟨[], 1⟩ noFaults).1 rfl
    simpa [visibleBooks] using h
  · exact (c8_list_books ⟨[], 1⟩ (fun _ => some "query failed")).2.1
      "query failed" rfl

/-- C4 counterexample: `GET /book/abc` — an id segment that is not a
well-formed integer — matches no registered route (`{id:[0-9]+}`) and
receives the router's 404, not the 400 the claim states. -/
theorem c4_counterexample :
    (serve "GET" ["book", "abc"] (.ok ⟨none, none, none, none⟩)
        (some ⟨[], 1⟩) noFaults).1 = ⟨404, .text "404 page not found"⟩ ∧
    (404 : Nat) ≠ 400 := by
  exact ⟨rfl, by decide⟩

/-- C4 (amended): a request to `/book/{id}` whose id segment is not a
nonempty digit run is rejected by the router with 404 for each of the
three methods; a digit-run segment that still fails integer parsing
(64-bit overflow) reaches the handler and gets 400 `Invalid ID
format`. -/
theorem c4_path_id_rejection (s : String) (db : DBState)
    (body : Except String BookPatch) (f : Faults) :
    (isDigits s = false →
      (serve "GET" ["book", s] body (some db) f).1 =
          ⟨404, .text "404 page not found"⟩ ∧
        (serve "PUT" ["book", s] body (some db) f).1 =
          ⟨404, .text "404 page not found"⟩ ∧
        (serve "DELETE" ["book", s] body (some db) f).1 =
          ⟨404, .text "404 page not found"⟩) ∧
    (isDigits s = true → goAtoi s = none →
      (serve "GET" ["book", s] body (some db) f).1 =
          ⟨400, .text "Invalid ID format"⟩ ∧
        (serve "PUT" ["book", s] body (some db) f).1 =
          ⟨400, .text "Invalid ID format"⟩ ∧
        (serve "DELETE" ["book", s] body (some db) f).1 =
          ⟨400, .text "Invalid ID format"⟩) := by
  constructor
  · intro h
    refine ⟨?_, ?_, ?_⟩ <;> simp [serve, h]
  · intro h1 h2
    refine ⟨?_, ?_, ?_⟩ <;>
      simp [serve, h1, KeyVault.GetBook, KeyVault.UpdateBook,
        KeyVault.DeleteBook, h2]

/-- Witness for C4 at concrete inputs: `abc` (not digits, 404) and a
digit run beyond 64 bits (400). -/
theorem c4_path_id_rejection_witness :
    (serve "DELETE" ["book", "abc"] (.ok ⟨none, none, none, none⟩)
        (some ⟨[], 1⟩) noFaults).1 = ⟨404, .text "404 page not found"⟩ ∧
    (serve "GET" ["book", "9999999999999999999999"]
        (.ok ⟨none, none, none, none⟩) (some ⟨[], 1⟩) noFaults).1 =
      ⟨400, .text "Invalid ID format"⟩ := by
  constructor
  · exact ((c4_path_id_rejection "abc" ⟨[], 1⟩
      (.ok ⟨none, none, none, none⟩) noFaults).1 (by decide)).2.2
  · exact ((c4_path_id_rejection "9999999999999999999999" ⟨[], 1⟩
      (.ok ⟨none, none, none, none⟩) noFaults).2 (by decide) (by decide)).1

/-- Table holding one live row with key 1, used for the C5
counterexample. -/
def c5_db : DBState := ⟨[⟨⟨1, "N", "A", 3⟩, false⟩], 2⟩

/-- Fault oracle of a database whose `First` query fails (a genuine
database failure, not a missing row). -/
def c5_faults : Faults := fun o =>
  if o = .first then some "connection failure" else none

/-- C5 counterexample: when the `First` query fails as a database
operation, `GetBook` answers 404 `Book not found`, not the 500 the claim
requires — and it answers 404 even though a matching row exists. -/
theorem c5_counterexample :
    (KeyVault.GetBook (some c5_db) "1" c5_faults).1 =
      ⟨404, .text "Book not found"⟩ ∧
    findRow c5_db 1 = some ⟨1, "N", "A", 3⟩ ∧
    c5_faults .first = some "connection failure" ∧
    (404 : Nat) ≠ 500 := by
  refine ⟨by decide, by decide, rfl, by decide⟩

/-- C5 (amended): failures of `Find`, `Create`, `Save` and `Delete`
yield 500 carrying the error message, but any failure of the row-fetch
`First` — whether record-not-found or a database failure — yields 404
`Book not found`. -/
theorem c5_failure_status_taxonomy (db : DBState) (f : Faults)
    (msg : String) (idSeg : String) (p : BookPatch) (i : Int) (b0 : Book) :
    (f .find = some msg →
      KeyVault.GetBooks (some db) f = (⟨500, .text msg⟩, some db)) ∧
    (f .create = some msg →
      KeyVault.CreateBook (some db) (.ok p) f = (⟨500, .text msg⟩, some db)) ∧
    (goAtoi idSeg = some i → f .first = some msg →
      KeyVault.GetBook (some db) idSeg f =
        (⟨404, .text "Book not found"⟩, some db)) ∧
    (goAtoi idSeg = some i → f .first = none → findRow db i = some b0 →
      f .save = some msg →
      KeyVault.UpdateBook (some db) idSeg (.ok p) f =
        (⟨500, .text msg⟩, some db)) ∧
    (goAtoi idSeg = some i → f .first = none → findRow db i = some b0 →
      f .delete = some msg →
      KeyVault.DeleteBook (some db) idSeg f =
        (⟨500, .text msg⟩, some db)) := by
  refine ⟨fun h => ?_, fun h => ?_, fun h1 h2 => ?_,
    fun h1 h2 h3 h4 => ?_, fun h1 h2 h3 h4 => ?_⟩
  · simp [KeyVault.GetBooks, h]
  · simp [KeyVault.CreateBook, h]
  · simp [KeyVault.GetBook, h1, h2]
  · simp [KeyVault.UpdateBook, h1, h2, h3, h4]
  · simp [KeyVault.DeleteBook, h1, h2, h3, h4]

/-- Witness for C5 at concrete inputs, one fault oracle per conjunct. -/
theorem c5_failure_status_taxonomy_witness :
    KeyVault.GetBooks (some c5_db) (fun _ => some "boom") =
      (⟨500, .text "boom"⟩, some c5_db) ∧
    KeyVault.CreateBook (some c5_db) (.ok ⟨none, none, none, none⟩)
        (fun _ => some "boom") = (⟨500, .text "boom"⟩, some c5_db) ∧
    KeyVault.GetBook (some c5_db) "1" (fun _ => some "boom") =
      (⟨404, .text "Book not found"⟩, some c5_db) ∧
    KeyVault.UpdateBook (some c5_db) "1" (.ok ⟨none, none, none, none⟩)
        (fun o => if o = .save then some "boom" else none) =
      (⟨500, .text "boom"⟩, some c5_db) ∧
    KeyVault.DeleteBook (some c5_db) "1"
        (fun o => if o = .delete then some "boom" else none) =
      (⟨500, .text "boom"⟩, some c5_db) := by
  refine ⟨?_, ?_, ?_, ?_, ?_⟩
  · exact (c5_failure_status_taxonomy c5_db (fun _ => some "boom") "boom"
      "1" ⟨none, none, none, none⟩ 1 ⟨1, "N", "A", 3⟩).1 rfl
  · exact (c5_failure_status_taxonomy c5_db (fun _ => some "boom") "boom"
      "1" ⟨none, none, none, none⟩ 1 ⟨1, "N", "A", 3⟩).2.1 rfl
  · exact (c5_failure_status_taxonomy c5_db (fun _ => some "boom") "boom"
      "1" ⟨none, none, none, none⟩ 1 ⟨1, "N", "A", 3⟩).2.2.1 (by decide) rfl
  · exact (c5_failure_status_taxonomy c5_db
      (fun o => if o = .save then some "boom" else none) "boom"
      "1" ⟨none, none, none, none⟩ 1 ⟨1, "N", "A", 3⟩).2.2.2.1
      (by decide) rfl (by decide) rfl
  · exact (c5_failure_status_taxonomy c5_db
      (fun o => if o = .delete then some "boom" else none) "boom"
      "1" ⟨none, none, none, none⟩ 1 ⟨1, "N", "A", 3⟩).2.2.2.2
      (by decide) rfl (by decide) rfl

/-- C3 counterexample: on an empty table (identity counter at 1), a
create whose body carries `id: 42` stores and returns a Book with id 42
— the body id is decoded into the promoted `gorm.Model.ID` field and
used by the insert, not ignored and overwritten by the server-generated
value 1. -/
theorem c3_counterexample :
    (KeyVault.CreateBook (some ⟨[], 1⟩) (.ok ⟨some 42, some "X", none, none⟩)
        noFaults).1 = ⟨200, .jsonBook ⟨42, "X", "", 0⟩⟩ ∧
    (DBState.mk [] 1).nextId = 1 ∧ (42 : Nat) ≠ 1 := by
  exact ⟨by decide, rfl, by decide⟩

/-- C3 (amended): a decodable create body whose id is absent or zero
gets the server-generated (identity counter) id, and the 200 response is
the stored Book with that assigned id; a nonzero body id is instead used
as the stored row's id. -/
theorem c3_create_id_assignment (db : DBState) (p : BookPatch) (f : Faults) :
    (f .create = none → (p.id = none ∨ p.id = some 0) →
      idTaken db db.nextId = false →
      KeyVault.CreateBook (some db) (.ok p) f =
        (⟨200, .jsonBook { applyPatch zeroBook p with id := db.nextId }⟩,
          some ⟨db.rows ++
              [⟨{ applyPatch zeroBook p with id := db.nextId }, false⟩],
            db.nextId + 1⟩)) ∧
    (∀ n, f .create = none → p.id = some n → n ≠ 0 → idTaken db n = false →
      KeyVault.CreateBook (some db) (.ok p) f =
        (⟨200, .jsonBook { applyPatch zeroBook p with id := n }⟩,
          some ⟨db.rows ++ [⟨{ applyPatch zeroBook p with id := n }, false⟩],
            max db.nextId (n + 1)⟩)) := by
  constructor
  · intro hf hid htaken
    have hzero : (applyPatch zeroBook p).id = 0 := by
      rcases hid with h | h <;> simp [applyPatch, h, zeroBook]
    simp only [KeyVault.CreateBook, hf, createOp, hzero, if_pos rfl,
      htaken, Bool.false_eq_true, if_false, ite_true]
    have hmax : max db.nextId (db.nextId + 1) = db.nextId + 1 := by omega
    simp [hmax]
  · intro n hf hid hn htaken
    have hidv : (applyPatch zeroBook p).id = n := by
      simp [applyPatch, hid]
    simp only [KeyVault.CreateBook, hf, createOp, hidv, if_neg hn,
      htaken, Bool.false_eq_true, if_false]

/-- Witness for C3 at concrete inputs: a body without id gets id 1 on an
empty table; a body with id 7 is stored under 7. -/
theorem c3_create_id_assignment_witness :
    KeyVault.CreateBook (some ⟨[], 1⟩) (.ok ⟨none, some "A", none, none⟩)
        noFaults =
      (⟨200, .jsonBook ⟨1, "A", "", 0⟩⟩,
        some ⟨[⟨⟨1, "A", "", 0⟩, false⟩], 2⟩) ∧
    KeyVault.CreateBook (some ⟨[], 1⟩) (.ok ⟨some 7, some "A", none, none⟩)
        noFaults =
      (⟨200, .jsonBook ⟨7, "A", "", 0⟩⟩,
        some ⟨[⟨⟨7, "A", "", 0⟩, false⟩], 8⟩) := by
  constructor
  · have h := (c3_create_id_assignment ⟨[], 1⟩ ⟨none, some "A", none, none⟩
      noFaults).1 rfl (Or.inl rfl) (by decide)
    simpa [applyPatch, zeroBook] using h
  · have h := (c3_create_id_assignment ⟨[], 1⟩ ⟨some 7, some "A", none, none⟩
      noFaults).2 7 rfl rfl (by decide) (by decide)
    simpa [applyPatch, zeroBook] using h

/-- Table holding one live row with key 1, used for C1. -/
def c1_db : DBState :=
  ⟨[⟨⟨1, "Original Name", "Original Author", 5⟩, false⟩], 2⟩

/-- Update body carrying only `book_name`; `author` and `price` absent. -/
def c1_body : BookPatch := ⟨none, some "New Name", none, none⟩

/-- C1 counterexample: updating row 1 with a body that omits `author`
and `price` returns (and stores) the row's previous `author` and
`price`, not the decoder's zero values — decoding into the fetched
struct merges instead of replacing. -/
theorem c1_counterexample :
    (KeyVault.UpdateBook (some c1_db) "1" (.ok c1_body) noFaults).1 =
      ⟨200, .jsonBook ⟨1, "New Name", "Original Author", 5⟩⟩ ∧
    c1_body.author = none ∧ c1_body.price = none ∧
    ("Original Author" : String) ≠ "" ∧ (5 : ℚ) ≠ 0 := by
  exact ⟨by decide, rfl, rfl, by decide, by decide⟩

/-- C1 (amended): a successful update responds 200 with a Book (also the
one saved) in which each field present in the body takes the body's
value and each field absent from the body keeps the fetched row's stored
value — a sparse patch, not a full replace. -/
theorem c1_update_sparse_patch (db : DBState) (idSeg : String) (i : Int)
    (b0 : Book) (p : BookPatch) (f : Faults)
    (h1 : goAtoi idSeg = some i) (h2 : f .first = none)
    (h3 : findRow db i = some b0) (h4 : f .save = none) :
    ∃ b, KeyVault.UpdateBook (some db) idSeg (.ok p) f =
        (⟨200, .jsonBook b⟩, some (saveOp db b)) ∧
      (p.bookName = none → b.bookName = b0.bookName) ∧
      (∀ v, p.bookName = some v → b.bookName = v) ∧
      (p.author = none → b.author = b0.author) ∧
      (∀ v, p.author = some v → b.author = v) ∧
      (p.price = none → b.price = b0.price) ∧
      (∀ v, p.price = some v → b.price = v) := by
  refine ⟨{ applyPatch b0 p with id := uintOfInt i }, ?_, ?_, ?_, ?_, ?_, ?_, ?_⟩
  · simp [KeyVault.UpdateBook, h1, h2, h3, h4]
  · intro h; simp [applyPatch, h]
  · intro v h; simp [applyPatch, h]
  · intro h; simp [applyPatch, h]
  · intro v h; simp [applyPatch, h]
  · intro h; simp [applyPatch, h]
  · intro v h; simp [applyPatch, h]

/-- Witness for C1 at a concrete input: row 1 updated with a body
carrying only `book_name`. -/
theorem c1_update_sparse_patch_witness :
    ∃ b, KeyVault.UpdateBook (some c1_db) "1" (.ok c1_body) noFaults =
        (⟨200, .jsonBook b⟩, some (saveOp c1_db b)) ∧
      (c1_body.bookName = none →
        b.bookName = (Book.mk 1 "Original Name" "Original Author" 5).bookName) ∧
      (∀ v, c1_body.bookName = some v → b.bookName = v) ∧
      (c1_body.author = none →
        b.author = (Book.mk 1 "Original Name" "Original Author" 5).author) ∧
      (∀ v, c1_body.author = some v → b.author = v) ∧
      (c1_body.price = none →
        b.price = (Book.mk 1 "Original Name" "Original Author" 5).price) ∧
      (∀ v, c1_body.price = some v → b.price = v) :=
  c1_update_sparse_patch c1_db "1" 1 ⟨1, "Original Name", "Original Author", 5⟩
    c1_body noFaults (by decide) rfl (by decide) rfl

/-- C7: a successful `DELETE /book/{id}` on an existing row (200 with
the JSON confirmation string) makes a subsequent `GET /book/{id}` at the
same id answer 404. -/
theorem c7_delete_then_get (db : DBState) (idSeg : String) (f : Faults)
    (db' : DBState)
    (hd : KeyVault.DeleteBook (some db) idSeg f =
      (⟨200, .jsonString "The book is deleted successfully!"⟩, some db')) :
    KeyVault.GetBook (some db') idSeg noFaults =
      (⟨404, .text "Book not found"⟩, some db') := by
  simp only [KeyVault.DeleteBook] at hd
  cases hA : goAtoi idSeg with
  | none => simp [hA] at hd
  | some i =>
    simp only [hA] at hd
    cases hF : f DBOp.first with
    | some m => simp [hF] at hd
    | none =>
      simp only [hF] at hd
      cases hR : findRow db i with
      | none => simp [hR] at hd
      | some b0 =>
        simp only [hR] at hd
        cases hD : f DBOp.delete with
        | some m => simp [hD] at hd
        | none =>
          simp only [hD, Prod.mk.injEq, Option.some.injEq] at hd
          obtain ⟨-, hdb⟩ := hd
          subst hdb
          simp [KeyVault.GetBook, hA, noFaults, findRow_deleteOp]

/-- Witness for C7 at a concrete input: the table after deleting row 1,
as `DeleteBook` produces it. -/
theorem c7_delete_then_get_witness :
    KeyVault.GetBook (some ⟨[⟨⟨1, "D", "E", 2⟩, true⟩], 2⟩) "1" noFaults =
      (⟨404, .text "Book not found"⟩, some ⟨[⟨⟨1, "D", "E", 2⟩, true⟩], 2⟩) :=
  c7_delete_then_get ⟨[⟨⟨1, "D", "E", 2⟩, false⟩], 2⟩ "1" noFaults
    ⟨[⟨⟨1, "D", "E", 2⟩, true⟩], 2⟩ (by decide)

/-- C6: a successful `POST /books` (200 with the stored Book `b`)
followed by `GET /book/{id}` at `b`'s id returns 200 with exactly `b` —
in particular the same `book_name`, `author` and `price`. -/
theorem c6_create_then_get (db : DBState) (p : BookPatch) (f : Faults)
    (b : Book) (db' : DBState) (s : String)
    (hc : KeyVault.CreateBook (some db) (.ok p) f =
      (⟨200, .jsonBook b⟩, some db'))
    (hs : goAtoi s = some (b.id : Int)) :
    KeyVault.GetBook (some db') s noFaults =
      (⟨200, .jsonBook b⟩, some db') := by
  simp only [KeyVault.CreateBook] at hc
  cases hF : f DBOp.create with
  | some m => simp [hF] at hc
  | none =>
    simp only [hF] at hc
    cases hC : createOp db (applyPatch zeroBook p) with
    | error m => simp [hC] at hc
    | ok pr =>
      obtain ⟨b1, db1⟩ := pr
      simp only [hC, Prod.mk.injEq, Response.mk.injEq, RespBody.jsonBook.injEq,
        Option.some.injEq] at hc
      obtain ⟨⟨-, hb⟩, hdb⟩ := hc
      subst hb
      subst hdb
      unfold createOp at hC
      by_cases ht :
          idTaken db (if (applyPatch zeroBook p).id = 0
            then db.nextId else (applyPatch zeroBook p).id) = true
      · rw [if_pos ht] at hC; simp at hC
      · rw [if_neg ht] at hC
        simp only [Except.ok.injEq, Prod.mk.injEq] at hC
        obtain ⟨hb1, hdb1⟩ := hC
        subst hb1
        subst hdb1
        have hfresh : idTaken db
            ({ applyPatch zeroBook p with
                id := if (applyPatch zeroBook p).id = 0
                  then db.nextId else (applyPatch zeroBook p).id } : Book).id
              = false := by
          simpa using ht
        have hrow := findRow_insert db
          ({ applyPatch zeroBook p with
              id := if (applyPatch zeroBook p).id = 0
                then db.nextId else (applyPatch zeroBook p).id } : Book)
          (max db.nextId
            ((if (applyPatch zeroBook p).id = 0
              then db.nextId else (applyPatch zeroBook p).id) + 1)) hfresh
        simp only [KeyVault.GetBook, hs, noFaults]
        simp only [apply_ite (fun n : Nat => (n : Int))] at hrow
        simp [hrow]

/-- Witness for C6 at a concrete input: the Book created from a body
without id on an empty table, fetched back by its assigned id 1. -/
theorem c6_create_then_get_witness :
    KeyVault.GetBook (some ⟨[⟨⟨1, "G", "", 0⟩, false⟩], 2⟩) "1" noFaults =
      (⟨200, .jsonBook ⟨1, "G", "", 0⟩⟩,
        some ⟨[⟨⟨1, "G", "", 0⟩, false⟩], 2⟩) :=
  c6_create_then_get ⟨[], 1⟩ ⟨none, some "G", none, none⟩ noFaults
    ⟨1, "G", "", 0⟩ ⟨[⟨⟨1, "G", "", 0⟩, false⟩], 2⟩ "1" (by decide) (by decide)

/-- Table holding one live row with key 1, used for the C2 witness. -/
def c2_db : DBState := ⟨[⟨⟨1, "A", "A", 5⟩, false⟩], 2⟩

/-- C2: every successful `PUT /book/{id}` (200 with Book `b`, saved
state `db'`) gives `b` the integer parsed from the path — whatever id
the body carried, since the body patch `p` is arbitrary — and a
subsequent `GET /book/{id}` at the same path returns exactly the
updated Book. -/
theorem c2_update_forces_path_id (db : DBState) (idSeg : String)
    (p : BookPatch) (f : Faults) (b : Book) (db' : DBState)
    (h : KeyVault.UpdateBook (some db) idSeg (.ok p) f =
      (⟨200, .jsonBook b⟩, some db')) :
    (∃ i, goAtoi idSeg = some i ∧ (b.id : Int) = i) ∧
    KeyVault.GetBook (some db') idSeg noFaults =
      (⟨200, .jsonBook b⟩, some db') := by
  simp only [KeyVault.UpdateBook] at h
  cases hA : goAtoi idSeg with
  | none => simp [hA] at h
  | some i =>
    simp only [hA] at h
    cases hF : f DBOp.first with
    | some m => simp [hF] at h
    | none =>
      simp only [hF] at h
      cases hR : findRow db i with
      | none => simp [hR] at h
      | some b0 =>
        simp only [hR] at h
        cases hS : f DBOp.save with
        | some m => simp [hS] at h
        | none =>
          simp only [hS, Prod.mk.injEq, Response.mk.injEq,
            RespBody.jsonBook.injEq, Option.some.injEq] at h
          obtain ⟨⟨-, hb⟩, hdb⟩ := h
          subst hb
          subst hdb
          have h0 : (0 : Int) ≤ i := by
            rw [← findRow_id hR]
            exact Int.natCast_nonneg _
          have hle : i ≤ (intMax : Int) := goAtoi_le_intMax hA
          have h64 : i < (2 : Int) ^ 64 := by
            refine lt_of_le_of_lt hle ?_
            norm_num [intMax]
          have hcast : ((uintOfInt i : Nat) : Int) = i := by
            rw [uintOfInt, Int.emod_eq_of_lt h0 h64, Int.toNat_of_nonneg h0]
          have hid : ((({ applyPatch b0 p with
              id := uintOfInt i } : Book)).id : Int) = i := hcast
          have hsome : (findRow db i).isSome := by rw [hR]; rfl
          have hrow := findRow_saveOp hid hsome
          refine ⟨⟨i, rfl, hid⟩, ?_⟩
          simp [KeyVault.GetBook, hA, noFaults, hrow]

/-- Witness for C2 at a concrete input: row 1 updated with a body
carrying a conflicting id 99; the stored and returned id is 1. -/
theorem c2_update_forces_path_id_witness :
    (∃ i, goAtoi "1" = some i ∧
      (((⟨1, "B2", "A", 5⟩ : Book).id : Int) = i)) ∧
    KeyVault.GetBook (some ⟨[⟨⟨1, "B2", "A", 5⟩, false⟩], 2⟩) "1" noFaults =
      (⟨200, .jsonBook ⟨1, "B2", "A", 5⟩⟩,
        some ⟨[⟨⟨1, "B2", "A", 5⟩, false⟩], 2⟩) :=
  c2_update_forces_path_id c2_db "1" ⟨some 99, some "B2", none, none⟩
    noFaults ⟨1, "B2", "A", 5⟩ ⟨[⟨⟨1, "B2", "A", 5⟩, false⟩], 2⟩ (by decide)
